import Mathlib

/-
  Verification of the Mistral workflow-engine control plane
  (mistral/engine/engine_server.py) against its design specification.

  The embedding models:
  - the RPC dispatcher operations of EngineServer, each of which logs a
    record and forwards a call to the engine collaborator;
  - the process lifecycle (EngineServer.start / EngineServer.stop),
    modelled as explicit event traces over an environment that fixes the
    outcome of every external collaborator call;
  - the CompletionResult value constructed by on_action_complete
    (mistral.workflow.utils.Result is not part of the sources under
    verification, so it is modelled from the spec as a tagged variant).
-/

namespace Mistral

/-- An opaque RPC-level value (context objects, identifiers, input payloads,
descriptions); the dispatcher never inspects these, so they are modelled as
atoms. -/
structure Val where
  str : String
deriving DecidableEq

/-- A fault raised by an external collaborator (the engine, the store, a
subsystem); propagated, never handled, by the control plane. -/
structure Fault where
  msg : String
deriving DecidableEq

/-- Handle returned by scheduler.start(). -/
structure SchedulerHandle where
  token : Nat
deriving DecidableEq

/-- Handle (thread group) returned by expiration_policy.setup(). -/
structure ExpirationHandle where
  token : Nat
deriving DecidableEq

/-- Handle for the RPC server object built by rpc.get_rpc_server_driver(). -/
structure RpcServerHandle where
  token : Nat
deriving DecidableEq

/-- Modelled from the spec: the class mistral.workflow.utils.Result is not
under the verified sources (only its construction site in on_action_complete
is).  The spec describes CompletionResult as a tagged variant
Success(data) | Failure(error): exactly one of success data / failure error
is populated, never both, never neither. -/
inductive CompletionResult where
  | success : Option Val → CompletionResult
  | failure : Val → CompletionResult
deriving DecidableEq

/-- Modelled from the spec: construction of a CompletionResult from a raw
(data, error) pair, as performed by wf_utils.Result(result_data,
result_error).  Per the spec, an explicit error takes precedence when both
are given, and an absent error yields success even when the data payload is
empty ("completed with null data" is success, not failure). -/
def Result (data : Option Val) (error : Option Val) : CompletionResult :=
  match error with
  | some e => CompletionResult.failure e
  | none => CompletionResult.success data

/-- Whether the result carries a populated success payload. -/
def CompletionResult.hasData : CompletionResult → Bool
  | .success (some _) => true
  | .success none => false
  | .failure _ => false

/-- Whether the result carries a failure payload. -/
def CompletionResult.hasError : CompletionResult → Bool
  | .success _ => false
  | .failure _ => true

/-- The success payload reported by the result, if any. -/
def CompletionResult.dataOf : CompletionResult → Option Val
  | .success d => d
  | .failure _ => none

/-- The failure payload reported by the result, if any. -/
def CompletionResult.errorOf : CompletionResult → Option Val
  | .success _ => none
  | .failure e => some e

/-- A result is a success exactly when it carries no error. -/
def CompletionResult.isSuccess : CompletionResult → Bool
  | .success _ => true
  | .failure _ => false

/-- A result is an error exactly when it carries a failure payload. -/
def CompletionResult.isError : CompletionResult → Bool
  | .success _ => false
  | .failure _ => true

/-- One value interpolated into a LOG.info format string.  The constructors
distinguish the kinds of values the dispatcher handles: opaque RPC values,
open params mappings, constructed completion results, plain strings,
optional strings, booleans, and optional values. -/
inductive LogVal where
  | v : Val → LogVal
  | m : List (String × Val) → LogVal
  | res : CompletionResult → LogVal
  | s : String → LogVal
  | os : Option String → LogVal
  | b : Bool → LogVal
  | ov : Option Val → LogVal
deriving DecidableEq

/-- One informational log record: the operation name quoted in the format
string together with the values interpolated into it, in order. -/
structure LogRecord where
  op : String
  args : List LogVal
deriving DecidableEq

/-- A call made to the engine collaborator: which contract method, with which
arguments.  For start_workflow and start_action the params mapping is
expanded as keyword arguments at the call site; it is carried here as the
open mapping itself. -/
inductive EngineCall where
  | start_workflow : Val → Val → Val → List (String × Val) → EngineCall
  | start_action : Val → Val → Val → List (String × Val) → EngineCall
  | on_action_complete : Val → CompletionResult → Bool → EngineCall
  | pause_workflow : Val → EngineCall
  | rerun_workflow : Val → Bool → Option Val → EngineCall
  | resume_workflow : Val → Option Val → EngineCall
  | stop_workflow : Val → String → Option String → EngineCall
  | rollback_workflow : Val → EngineCall
deriving DecidableEq

/-- An observable effect of one dispatcher operation, in program order:
either a LOG.info record was emitted or the engine collaborator was
invoked. -/
inductive DispEvent where
  | logged : LogRecord → DispEvent
  | engineCalled : EngineCall → DispEvent
deriving DecidableEq

/-- Projects the engine call out of a dispatch event. -/
def DispEvent.calledOf : DispEvent → Option EngineCall
  | .engineCalled c => some c
  | .logged _ => none

/-- The EngineServer object: the engine collaborator it forwards to (held in
self.engine), the setup_profiler flag, and the three lifecycle handles,
all None until start() assigns them. -/
structure EngineServer where
  engine : EngineCall → Except Fault Val
  setup_profiler : Bool
  rpc_server : Option RpcServerHandle
  scheduler : Option SchedulerHandle
  expiration_policy_tg : Option ExpirationHandle

/-- EngineServer.start_workflow: logs rpc_ctx, workflow_identifier,
workflow_input, description and params, then forwards to
self.engine.start_workflow(workflow_identifier, workflow_input,
description, params expanded as keyword arguments) and returns the engine
result. -/
def EngineServer.start_workflow (srv : EngineServer)
    (rpc_ctx workflow_identifier workflow_input description : Val)
    (params : List (String × Val)) : List DispEvent × Except Fault Val :=
  ([DispEvent.logged
      ⟨"start_workflow",
       [LogVal.v rpc_ctx, LogVal.v workflow_identifier,
        LogVal.v workflow_input, LogVal.v description, LogVal.m params]⟩,
    DispEvent.engineCalled
      (EngineCall.start_workflow workflow_identifier workflow_input
        description params)],
   srv.engine
     (EngineCall.start_workflow workflow_identifier workflow_input
       description params))

/-- EngineServer.start_action: logs rpc_ctx, action_name, action_input,
description and params, then forwards to self.engine.start_action. -/
def EngineServer.start_action (srv : EngineServer)
    (rpc_ctx action_name action_input description : Val)
    (params : List (String × Val)) : List DispEvent × Except Fault Val :=
  ([DispEvent.logged
      ⟨"start_action",
       [LogVal.v rpc_ctx, LogVal.v action_name, LogVal.v action_input,
        LogVal.v description, LogVal.m params]⟩,
    DispEvent.engineCalled
      (EngineCall.start_action action_name action_input description params)],
   srv.engine
     (EngineCall.start_action action_name action_input description params))

/-- EngineServer.on_action_complete: first constructs
result = wf_utils.Result(result_data, result_error), then logs rpc_ctx,
action_ex_id and the constructed result (not the raw pair, and not
wf_action), then forwards to
self.engine.on_action_complete(action_ex_id, result, wf_action). -/
def EngineServer.on_action_complete (srv : EngineServer)
    (rpc_ctx action_ex_id : Val) (result_data result_error : Option Val)
    (wf_action : Bool) : List DispEvent × Except Fault Val :=
  ([DispEvent.logged
      ⟨"on_action_complete",
       [LogVal.v rpc_ctx, LogVal.v action_ex_id,
        LogVal.res (Result result_data result_error)]⟩,
    DispEvent.engineCalled
      (EngineCall.on_action_complete action_ex_id
        (Result result_data result_error) wf_action)],
   srv.engine
     (EngineCall.on_action_complete action_ex_id
       (Result result_data result_error) wf_action))

/-- EngineServer.pause_workflow: logs rpc_ctx and execution_id, then
forwards to self.engine.pause_workflow(execution_id). -/
def EngineServer.pause_workflow (srv : EngineServer)
    (rpc_ctx execution_id : Val) : List DispEvent × Except Fault Val :=
  ([DispEvent.logged
      ⟨"pause_workflow", [LogVal.v rpc_ctx, LogVal.v execution_id]⟩,
    DispEvent.engineCalled (EngineCall.pause_workflow execution_id)],
   srv.engine (EngineCall.pause_workflow execution_id))

/-- EngineServer.rerun_workflow: logs only rpc_ctx and task_ex_id (the
reset and env arguments do not appear in the format string), then forwards
to self.engine.rerun_workflow(task_ex_id, reset, env). -/
def EngineServer.rerun_workflow (srv : EngineServer)
    (rpc_ctx task_ex_id : Val) (reset : Bool) (env : Option Val) :
    List DispEvent × Except Fault Val :=
  ([DispEvent.logged
      ⟨"rerun_workflow", [LogVal.v rpc_ctx, LogVal.v task_ex_id]⟩,
    DispEvent.engineCalled (EngineCall.rerun_workflow task_ex_id reset env)],
   srv.engine (EngineCall.rerun_workflow task_ex_id reset env))

/-- EngineServer.resume_workflow: logs only rpc_ctx and wf_ex_id (the env
argument does not appear in the format string), then forwards to
self.engine.resume_workflow(wf_ex_id, env). -/
def EngineServer.resume_workflow (srv : EngineServer)
    (rpc_ctx wf_ex_id : Val) (env : Option Val) :
    List DispEvent × Except Fault Val :=
  ([DispEvent.logged
      ⟨"resume_workflow", [LogVal.v rpc_ctx, LogVal.v wf_ex_id]⟩,
    DispEvent.engineCalled (EngineCall.resume_workflow wf_ex_id env)],
   srv.engine (EngineCall.resume_workflow wf_ex_id env))

/-- EngineServer.stop_workflow: logs rpc_ctx, execution_id, state and
message, then forwards to
self.engine.stop_workflow(execution_id, state, message).  Note: the method
body performs no validation of the state argument. -/
def EngineServer.stop_workflow (srv : EngineServer)
    (rpc_ctx execution_id : Val) (state : String) (message : Option String) :
    List DispEvent × Except Fault Val :=
  ([DispEvent.logged
      ⟨"stop_workflow",
       [LogVal.v rpc_ctx, LogVal.v execution_id, LogVal.s state,
        LogVal.os message]⟩,
    DispEvent.engineCalled
      (EngineCall.stop_workflow execution_id state message)],
   srv.engine (EngineCall.stop_workflow execution_id state message))

/-- EngineServer.rollback_workflow: logs rpc_ctx and execution_id, then
forwards to self.engine.rollback_workflow(execution_id). -/
def EngineServer.rollback_workflow (srv : EngineServer)
    (rpc_ctx execution_id : Val) : List DispEvent × Except Fault Val :=
  ([DispEvent.logged
      ⟨"rollback_workflow", [LogVal.v rpc_ctx, LogVal.v execution_id]⟩,
    DispEvent.engineCalled (EngineCall.rollback_workflow execution_id)],
   srv.engine (EngineCall.rollback_workflow execution_id))

/-- An observable lifecycle effect of EngineServer.start or
EngineServer.stop: one call made to an external collaborator, in program
order.  Stop events carry the graceful flag passed to the collaborator;
rpcRun carries the executor mode string passed to self._rpc_server.run. -/
inductive Event where
  | superStart : Event
  | setupDb : Event
  | schedulerStart : Event
  | expirationSetup : Event
  | profilerSetup : Event
  | rpcServerCreate : Event
  | rpcRegister : Event
  | rpcRun : String → Event
  | notifyStarted : Event
  | superStop : Bool → Event
  | schedulerStop : Bool → Event
  | expirationStop : Bool → Event
  | rpcStop : Bool → Event
deriving DecidableEq

/-- The graceful flag a shutdown event carries, none for startup events. -/
def Event.gracefulOf : Event → Option Bool
  | .superStop g => some g
  | .schedulerStop g => some g
  | .expirationStop g => some g
  | .rpcStop g => some g
  | _ => none

/-- The three background/IO subsystems whose bring-up and tear-down order
the lifecycle claims compare. -/
inductive Subsystem where
  | scheduler : Subsystem
  | expiration : Subsystem
  | rpcServer : Subsystem
deriving DecidableEq

/-- The subsystem an event brings up, if any. -/
def Event.startedSubsystem : Event → Option Subsystem
  | .schedulerStart => some .scheduler
  | .expirationSetup => some .expiration
  | .rpcServerCreate => some .rpcServer
  | _ => none

/-- The subsystem an event tears down, if any. -/
def Event.stoppedSubsystem : Event → Option Subsystem
  | .schedulerStop _ => some .scheduler
  | .expirationStop _ => some .expiration
  | .rpcStop _ => some .rpcServer
  | _ => none

/-- The outcome of each external collaborator call that
EngineServer.start makes, fixed up front: either the call returns a value
or it raises a fault that propagates out of start(). -/
structure StartEnv where
  superStartR : Except Fault Unit
  setupDbR : Except Fault Unit
  schedulerStartR : Except Fault SchedulerHandle
  expirationSetupR : Except Fault ExpirationHandle
  profilerSetupR : Except Fault Unit
  rpcServerNew : Except Fault RpcServerHandle
  rpcRegisterR : Except Fault Unit
  rpcRunR : Except Fault Unit
  notifyStartedR : Except Fault Unit

/-- Whether an external call outcome is a normal return. -/
def exOk {α : Type} : Except Fault α → Bool
  | .ok _ => true
  | .error _ => false

/-- The tail of EngineServer.start from the RPC phase on: construct the RPC
server (self._rpc_server is assigned on success), register this server as
the endpoint, run the server with executor given as the string blocking,
then call self._notify_started.  A fault at any call propagates and the
remaining calls are not made. -/
def startRpcPhase (env : StartEnv) (tr : List Event) (s : EngineServer) :
    List Event × EngineServer × Except Fault Unit :=
  match env.rpcServerNew with
  | .error f => (tr ++ [Event.rpcServerCreate], s, .error f)
  | .ok h =>
    match env.rpcRegisterR with
    | .error f =>
        (tr ++ [Event.rpcServerCreate, Event.rpcRegister],
         { s with rpc_server := some h }, .error f)
    | .ok _ =>
      match env.rpcRunR with
      | .error f =>
          (tr ++ [Event.rpcServerCreate, Event.rpcRegister,
                  Event.rpcRun "blocking"],
           { s with rpc_server := some h }, .error f)
      | .ok _ =>
        match env.notifyStartedR with
        | .error f =>
            (tr ++ [Event.rpcServerCreate, Event.rpcRegister,
                    Event.rpcRun "blocking", Event.notifyStarted],
             { s with rpc_server := some h }, .error f)
        | .ok _ =>
            (tr ++ [Event.rpcServerCreate, Event.rpcRegister,
                    Event.rpcRun "blocking", Event.notifyStarted],
             { s with rpc_server := some h }, .ok ())

/-- EngineServer.start: super().start(), db_api.setup_db(),
self._scheduler = scheduler.start(),
self._expiration_policy_tg = expiration_policy.setup(), then, only when the
setup_profiler flag is set, profiler_utils.setup, then the RPC phase.  Each
handle is assigned exactly when its call returns; a fault at any call
propagates out of start() immediately, leaving the handles assigned so
far. -/
def EngineServer.start (env : StartEnv) (s : EngineServer) :
    List Event × EngineServer × Except Fault Unit :=
  match env.superStartR with
  | .error f => ([Event.superStart], s, .error f)
  | .ok _ =>
  match env.setupDbR with
  | .error f => ([Event.superStart, Event.setupDb], s, .error f)
  | .ok _ =>
  match env.schedulerStartR with
  | .error f =>
      ([Event.superStart, Event.setupDb, Event.schedulerStart], s, .error f)
  | .ok sch =>
  match env.expirationSetupR with
  | .error f =>
      ([Event.superStart, Event.setupDb, Event.schedulerStart,
        Event.expirationSetup],
       { s with scheduler := some sch }, .error f)
  | .ok tg =>
    if s.setup_profiler then
      match env.profilerSetupR with
      | .error f =>
          ([Event.superStart, Event.setupDb, Event.schedulerStart,
            Event.expirationSetup, Event.profilerSetup],
           { s with scheduler := some sch, expiration_policy_tg := some tg },
           .error f)
      | .ok _ =>
          startRpcPhase env
            [Event.superStart, Event.setupDb, Event.schedulerStart,
             Event.expirationSetup, Event.profilerSetup]
            { s with scheduler := some sch, expiration_policy_tg := some tg }
    else
      startRpcPhase env
        [Event.superStart, Event.setupDb, Event.schedulerStart,
         Event.expirationSetup]
        { s with scheduler := some sch, expiration_policy_tg := some tg }

/-- EngineServer.stop: super().stop(graceful), then
scheduler.stop_scheduler(self._scheduler, graceful) only if self._scheduler
is set, then self._expiration_policy_tg.stop(graceful) only if that handle
is set, then self._rpc_server.stop(graceful) only if that handle is set. -/
def EngineServer.stop (s : EngineServer) (graceful : Bool) : List Event :=
  [Event.superStop graceful]
    ++ (match s.scheduler with
        | some _ => [Event.schedulerStop graceful]
        | none => [])
    ++ (match s.expiration_policy_tg with
        | some _ => [Event.expirationStop graceful]
        | none => [])
    ++ (match s.rpc_server with
        | some _ => [Event.rpcStop graceful]
        | none => [])

/-- Calling stop() with no argument: the Python signature is
stop(self, graceful=False), so this is stop with graceful substituted by
False. -/
def EngineServer.stopNoArg (s : EngineServer) : List Event :=
  EngineServer.stop s false

/-- An engine collaborator that answers every call with the same successful
value; used to probe the dispatcher on concrete inputs. -/
def engOk : EngineCall → Except Fault Val :=
  fun _ => Except.ok ⟨"engine-result"⟩

/-- A freshly constructed server: profiling enabled, no handle assigned. -/
def srv0 : EngineServer :=
  { engine := engOk
    setup_profiler := true
    rpc_server := none
    scheduler := none
    expiration_policy_tg := none }

/-- An environment in which every external call of start() succeeds. -/
def envOk : StartEnv :=
  { superStartR := Except.ok ()
    setupDbR := Except.ok ()
    schedulerStartR := Except.ok ⟨1⟩
    expirationSetupR := Except.ok ⟨2⟩
    profilerSetupR := Except.ok ()
    rpcServerNew := Except.ok ⟨3⟩
    rpcRegisterR := Except.ok ()
    rpcRunR := Except.ok ()
    notifyStartedR := Except.ok () }

/-- An environment in which profiler setup raises and every other external
call succeeds. -/
def envProfFail : StartEnv :=
  { superStartR := Except.ok ()
    setupDbR := Except.ok ()
    schedulerStartR := Except.ok ⟨1⟩
    expirationSetupR := Except.ok ⟨2⟩
    profilerSetupR := Except.error ⟨"profiler down"⟩
    rpcServerNew := Except.ok ⟨3⟩
    rpcRegisterR := Except.ok ()
    rpcRunR := Except.ok ()
    notifyStartedR := Except.ok () }

/-- The server state after a fully successful start(). -/
def srvStarted : EngineServer :=
  (EngineServer.start envOk srv0).2.1

/-- C1 (counterexample): the claim that every dispatcher operation forwards
its arguments exactly, unmodified and unfiltered, is false for
on_action_complete.  At the concrete input (action_ex_id = ae-1,
result_data = some x, result_error = some boom, wf_action = false), the
engine receives the single constructed CompletionResult failure boom in
place of the raw (result_data, result_error) pair: the forwarded result
reports no data at all, and the dispatch (trace and result alike) is
indistinguishable from the one for the different argument tuple with
result_data = none. -/
theorem C1_counterexample :
    ((EngineServer.on_action_complete srv0 ⟨"ctx"⟩ ⟨"ae-1"⟩
        (some ⟨"x"⟩) (some ⟨"boom"⟩) false).1.filterMap DispEvent.calledOf
      = [EngineCall.on_action_complete ⟨"ae-1"⟩
          (CompletionResult.failure ⟨"boom"⟩) false]) ∧
    (Result (some ⟨"x"⟩) (some ⟨"boom"⟩)).dataOf = none ∧
    (EngineServer.on_action_complete srv0 ⟨"ctx"⟩ ⟨"ae-1"⟩
        (some ⟨"x"⟩) (some ⟨"boom"⟩) false
      = EngineServer.on_action_complete srv0 ⟨"ctx"⟩ ⟨"ae-1"⟩
          none (some ⟨"boom"⟩) false) :=
  ⟨rfl, rfl, rfl⟩

/-- C1 (amended): each of the seven operations other than
on_action_complete forwards exactly its arguments, in the same structure,
with the open params mapping passed through untouched, to the corresponding
engine method, and returns the engine result (or fault) unchanged;
on_action_complete forwards action_ex_id and wf_action unchanged but
forwards the CompletionResult constructed from (result_data, result_error)
in place of the raw pair, and likewise returns the engine result
unchanged. -/
theorem C1_pass_through_amended (srv : EngineServer) (ctx : Val)
    (wid winp wdesc : Val) (wparams : List (String × Val))
    (aname ainp adesc : Val) (aparams : List (String × Val))
    (aeid : Val) (rdata rerror : Option Val) (wfa : Bool)
    (pid : Val) (tid : Val) (rst : Bool) (renv : Option Val)
    (wfid : Val) (senv : Option Val)
    (sid : Val) (sstate : String) (smsg : Option String) (rbid : Val) :
    ((EngineServer.start_workflow srv ctx wid winp wdesc wparams).1.filterMap
        DispEvent.calledOf
      = [EngineCall.start_workflow wid winp wdesc wparams]) ∧
    ((EngineServer.start_workflow srv ctx wid winp wdesc wparams).2
      = srv.engine (EngineCall.start_workflow wid winp wdesc wparams)) ∧
    ((EngineServer.start_action srv ctx aname ainp adesc aparams).1.filterMap
        DispEvent.calledOf
      = [EngineCall.start_action aname ainp adesc aparams]) ∧
    ((EngineServer.start_action srv ctx aname ainp adesc aparams).2
      = srv.engine (EngineCall.start_action aname ainp adesc aparams)) ∧
    ((EngineServer.on_action_complete srv ctx aeid rdata rerror
        wfa).1.filterMap DispEvent.calledOf
      = [EngineCall.on_action_complete aeid (Result rdata rerror) wfa]) ∧
    ((EngineServer.on_action_complete srv ctx aeid rdata rerror wfa).2
      = srv.engine
          (EngineCall.on_action_complete aeid (Result rdata rerror) wfa)) ∧
    ((EngineServer.pause_workflow srv ctx pid).1.filterMap
        DispEvent.calledOf
      = [EngineCall.pause_workflow pid]) ∧
    ((EngineServer.pause_workflow srv ctx pid).2
      = srv.engine (EngineCall.pause_workflow pid)) ∧
    ((EngineServer.rerun_workflow srv ctx tid rst renv).1.filterMap
        DispEvent.calledOf
      = [EngineCall.rerun_workflow tid rst renv]) ∧
    ((EngineServer.rerun_workflow srv ctx tid rst renv).2
      = srv.engine (EngineCall.rerun_workflow tid rst renv)) ∧
    ((EngineServer.resume_workflow srv ctx wfid senv).1.filterMap
        DispEvent.calledOf
      = [EngineCall.resume_workflow wfid senv]) ∧
    ((EngineServer.resume_workflow srv ctx wfid senv).2
      = srv.engine (EngineCall.resume_workflow wfid senv)) ∧
    ((EngineServer.stop_workflow srv ctx sid sstate smsg).1.filterMap
        DispEvent.calledOf
      = [EngineCall.stop_workflow sid sstate smsg]) ∧
    ((EngineServer.stop_workflow srv ctx sid sstate smsg).2
      = srv.engine (EngineCall.stop_workflow sid sstate smsg)) ∧
    ((EngineServer.rollback_workflow srv ctx rbid).1.filterMap
        DispEvent.calledOf
      = [EngineCall.rollback_workflow rbid]) ∧
    ((EngineServer.rollback_workflow srv ctx rbid).2
      = srv.engine (EngineCall.rollback_workflow rbid)) :=
  ⟨rfl, rfl, rfl, rfl, rfl, rfl, rfl, rfl,
   rfl, rfl, rfl, rfl, rfl, rfl, rfl, rfl⟩

/-- C2 (counterexample): the claim that an illegal stop_workflow target
state is rejected with InvalidArgument before any engine call is false.  At
the concrete input state = PAUSED, the dispatcher logs the call and invokes
the engine with PAUSED forwarded verbatim, and the dispatch returns the
engine answer normally, with no error of any kind. -/
theorem C2_counterexample :
    ((EngineServer.stop_workflow srv0 ⟨"ctx"⟩ ⟨"wf-1"⟩ "PAUSED" none).1
      = [DispEvent.logged
           ⟨"stop_workflow",
            [LogVal.v ⟨"ctx"⟩, LogVal.v ⟨"wf-1"⟩, LogVal.s "PAUSED",
             LogVal.os none]⟩,
         DispEvent.engineCalled
           (EngineCall.stop_workflow ⟨"wf-1"⟩ "PAUSED" none)]) ∧
    ((EngineServer.stop_workflow srv0 ⟨"ctx"⟩ ⟨"wf-1"⟩ "PAUSED" none).2
      = Except.ok ⟨"engine-result"⟩) :=
  ⟨rfl, rfl⟩

/-- C2 (amended): the dispatcher performs no validation of the
stop_workflow target state: for every state value, including non-terminal
ones such as PAUSED, it logs the call and forwards execution_id, state and
message unchanged to the engine, whose answer it returns unchanged; any
legality check on the target state belongs to the engine. -/
theorem C2_no_validation_amended (srv : EngineServer)
    (rpc_ctx execution_id : Val) (state : String)
    (message : Option String) :
    ((EngineServer.stop_workflow srv rpc_ctx execution_id state message).1
      = [DispEvent.logged
           ⟨"stop_workflow",
            [LogVal.v rpc_ctx, LogVal.v execution_id, LogVal.s state,
             LogVal.os message]⟩,
         DispEvent.engineCalled
           (EngineCall.stop_workflow execution_id state message)]) ∧
    ((EngineServer.stop_workflow srv rpc_ctx execution_id state message).2
      = srv.engine (EngineCall.stop_workflow execution_id state message)) :=
  ⟨rfl, rfl⟩

/-- C7 (counterexample): the claim that every operation logs all of its
arguments is false.  At the concrete rerun_workflow input with reset = true
and env = some env1, the emitted log record interpolates only rpc_ctx and
task_ex_id: neither the reset flag nor the env mapping occurs among the
logged values, although both are forwarded to the engine. -/
theorem C7_counterexample :
    ((EngineServer.rerun_workflow srv0 ⟨"ctx"⟩ ⟨"te-1"⟩ true
        (some ⟨"env1"⟩)).1
      = [DispEvent.logged
           ⟨"rerun_workflow", [LogVal.v ⟨"ctx"⟩, LogVal.v ⟨"te-1"⟩]⟩,
         DispEvent.engineCalled
           (EngineCall.rerun_workflow ⟨"te-1"⟩ true (some ⟨"env1"⟩))]) ∧
    ([LogVal.v ⟨"ctx"⟩, LogVal.v ⟨"te-1"⟩].contains (LogVal.b true)
      = false) ∧
    ([LogVal.v ⟨"ctx"⟩, LogVal.v ⟨"te-1"⟩].contains
        (LogVal.ov (some ⟨"env1"⟩))
      = false) :=
  ⟨rfl, by decide, by decide⟩

/-- C7 (amended): every operation emits exactly one informational log
record, carrying the operation name, before the engine call.
start_workflow, start_action, pause_workflow, stop_workflow and
rollback_workflow log all of their arguments; resume_workflow omits env;
rerun_workflow omits reset and env; on_action_complete logs the constructed
completion result in place of the raw (result_data, result_error) pair and
omits wf_action. -/
theorem C7_logging_amended (srv : EngineServer) (ctx : Val)
    (wid winp wdesc : Val) (wparams : List (String × Val))
    (aname ainp adesc : Val) (aparams : List (String × Val))
    (aeid : Val) (rdata rerror : Option Val) (wfa : Bool)
    (pid : Val) (tid : Val) (rst : Bool) (renv : Option Val)
    (wfid : Val) (senv : Option Val)
    (sid : Val) (sstate : String) (smsg : Option String) (rbid : Val) :
    ((EngineServer.start_workflow srv ctx wid winp wdesc wparams).1
      = [DispEvent.logged
           ⟨"start_workflow",
            [LogVal.v ctx, LogVal.v wid, LogVal.v winp, LogVal.v wdesc,
             LogVal.m wparams]⟩,
         DispEvent.engineCalled
           (EngineCall.start_workflow wid winp wdesc wparams)]) ∧
    ((EngineServer.start_action srv ctx aname ainp adesc aparams).1
      = [DispEvent.logged
           ⟨"start_action",
            [LogVal.v ctx, LogVal.v aname, LogVal.v ainp, LogVal.v adesc,
             LogVal.m aparams]⟩,
         DispEvent.engineCalled
           (EngineCall.start_action aname ainp adesc aparams)]) ∧
    ((EngineServer.on_action_complete srv ctx aeid rdata rerror wfa).1
      = [DispEvent.logged
           ⟨"on_action_complete",
            [LogVal.v ctx, LogVal.v aeid,
             LogVal.res (Result rdata rerror)]⟩,
         DispEvent.engineCalled
           (EngineCall.on_action_complete aeid (Result rdata rerror)
             wfa)]) ∧
    ((EngineServer.pause_workflow srv ctx pid).1
      = [DispEvent.logged
           ⟨"pause_workflow", [LogVal.v ctx, LogVal.v pid]⟩,
         DispEvent.engineCalled (EngineCall.pause_workflow pid)]) ∧
    ((EngineServer.rerun_workflow srv ctx tid rst renv).1
      = [DispEvent.logged
           ⟨"rerun_workflow", [LogVal.v ctx, LogVal.v tid]⟩,
         DispEvent.engineCalled
           (EngineCall.rerun_workflow tid rst renv)]) ∧
    ((EngineServer.resume_workflow srv ctx wfid senv).1
      = [DispEvent.logged
           ⟨"resume_workflow", [LogVal.v ctx, LogVal.v wfid]⟩,
         DispEvent.engineCalled (EngineCall.resume_workflow wfid senv)]) ∧
    ((EngineServer.stop_workflow srv ctx sid sstate smsg).1
      = [DispEvent.logged
           ⟨"stop_workflow",
            [LogVal.v ctx, LogVal.v sid, LogVal.s sstate,
             LogVal.os smsg]⟩,
         DispEvent.engineCalled
           (EngineCall.stop_workflow sid sstate smsg)]) ∧
    ((EngineServer.rollback_workflow srv ctx rbid).1
      = [DispEvent.logged
           ⟨"rollback_workflow", [LogVal.v ctx, LogVal.v rbid]⟩,
         DispEvent.engineCalled (EngineCall.rollback_workflow rbid)]) :=
  ⟨rfl, rfl, rfl, rfl, rfl, rfl, rfl, rfl⟩

/-- C8: for a (result_data, result_error) pair with exactly one of the two
populated, the CompletionResult that on_action_complete constructs and
forwards reports that one, and only that one, as present: populated data
with no error yields a success carrying exactly that data and no error, and
no data with a populated error yields a failure carrying exactly that error
and no data; no constructible result reports both, and in each of the two
cases exactly one side is reported. -/
theorem C8_completion_result (srv : EngineServer) (rpc_ctx aeid d e : Val)
    (w : Bool) :
    ((EngineServer.on_action_complete srv rpc_ctx aeid (some d) none
        w).1.filterMap DispEvent.calledOf
      = [EngineCall.on_action_complete aeid
          (CompletionResult.success (some d)) w]) ∧
    (Result (some d) none).dataOf = some d ∧
    (Result (some d) none).errorOf = none ∧
    (Result (some d) none).isSuccess = true ∧
    ((EngineServer.on_action_complete srv rpc_ctx aeid none (some e)
        w).1.filterMap DispEvent.calledOf
      = [EngineCall.on_action_complete aeid (CompletionResult.failure e)
          w]) ∧
    (Result none (some e)).errorOf = some e ∧
    (Result none (some e)).dataOf = none ∧
    (Result none (some e)).isError = true ∧
    (∀ r : CompletionResult, (r.hasData && r.hasError) = false) ∧
    (((Result (some d) none).hasData || (Result (some d) none).hasError)
      = true) ∧
    (((Result none (some e)).hasData || (Result none (some e)).hasError)
      = true) :=
  ⟨rfl, rfl, rfl, rfl, rfl, rfl, rfl, rfl,
   fun r => by cases r with
    | success o => cases o <;> rfl
    | failure e2 => rfl,
   rfl, rfl⟩

/-- If the readiness notification was reached, the RPC phase ran all four
of its calls in order: server construction, endpoint registration, the
blocking run, then the notification; and construction, registration and run
all returned normally. -/
theorem startRpcPhase_notify_trace (env : StartEnv) (tr : List Event)
    (s : EngineServer)
    (h : Event.notifyStarted ∈ (startRpcPhase env tr s).1)
    (hn : Event.notifyStarted ∉ tr) :
    (startRpcPhase env tr s).1
      = tr ++ [Event.rpcServerCreate, Event.rpcRegister,
               Event.rpcRun "blocking", Event.notifyStarted] ∧
    exOk env.rpcServerNew = true ∧ exOk env.rpcRegisterR = true ∧
    exOk env.rpcRunR = true := by
  obtain ⟨r1, r2, r3, r4, r5, r6, r7, r8, r9⟩ := env
  cases r6 <;> cases r7 <;> cases r8 <;> cases r9 <;>
    simp_all [startRpcPhase, exOk]

/-- C4: start() performs its steps in order (base-service start, persistent
store setup, scheduler start, expiration-sweep setup, profiler wiring when
enabled, RPC server construction, endpoint registration, the blocking serve
loop), and the started readiness notification is reached only after every
one of those prior calls has succeeded: whenever the notification event
occurs in the trace at all, the trace is exactly that ordered sequence
ending in the notification, and every prior external call returned
normally. -/
theorem C4_start_order (env : StartEnv) (s : EngineServer)
    (h : Event.notifyStarted ∈ (EngineServer.start env s).1) :
    ((EngineServer.start env s).1
      = [Event.superStart, Event.setupDb, Event.schedulerStart,
         Event.expirationSetup]
        ++ (if s.setup_profiler then [Event.profilerSetup] else [])
        ++ [Event.rpcServerCreate, Event.rpcRegister,
            Event.rpcRun "blocking", Event.notifyStarted]) ∧
    exOk env.superStartR = true ∧ exOk env.setupDbR = true ∧
    exOk env.schedulerStartR = true ∧ exOk env.expirationSetupR = true ∧
    (s.setup_profiler = true → exOk env.profilerSetupR = true) ∧
    exOk env.rpcServerNew = true ∧ exOk env.rpcRegisterR = true ∧
    exOk env.rpcRunR = true := by
  obtain ⟨r1, r2, r3, r4, r5, r6, r7, r8, r9⟩ := env
  cases r1 with
  | error f => exact absurd h (by simp [EngineServer.start])
  | ok u1 =>
  cases r2 with
  | error f => exact absurd h (by simp [EngineServer.start])
  | ok u2 =>
  cases r3 with
  | error f => exact absurd h (by simp [EngineServer.start])
  | ok sch =>
  cases r4 with
  | error f => exact absurd h (by simp [EngineServer.start])
  | ok tg =>
  cases hsp : s.setup_profiler with
  | false =>
      simp only [EngineServer.start, hsp, Bool.false_eq_true, if_false] at h ⊢
      obtain ⟨htr, h6, h7, h8⟩ := startRpcPhase_notify_trace _ _ _ h (by decide)
      refine ⟨?_, rfl, rfl, rfl, rfl, ?_, h6, h7, h8⟩
      · rw [htr]; rfl
      · intro hc; exact absurd hc (by simp [hsp])
  | true =>
    cases r5 with
    | error f =>
        exact absurd h (by simp [EngineServer.start, hsp])
    | ok u5 =>
        simp only [EngineServer.start, hsp, if_true] at h ⊢
        obtain ⟨htr, h6, h7, h8⟩ :=
          startRpcPhase_notify_trace _ _ _ h (by decide)
        refine ⟨?_, rfl, rfl, rfl, rfl, fun _ => rfl, h6, h7, h8⟩
        rw [htr]; rfl

/-- C4 (witness): in an environment where every external call succeeds, a
freshly constructed server with profiling enabled reaches the notification
and its start trace is exactly the ordered sequence the claim states. -/
theorem C4_start_order_witness :
    ((EngineServer.start envOk srv0).1
      = [Event.superStart, Event.setupDb, Event.schedulerStart,
         Event.expirationSetup]
        ++ (if srv0.setup_profiler then [Event.profilerSetup] else [])
        ++ [Event.rpcServerCreate, Event.rpcRegister,
            Event.rpcRun "blocking", Event.notifyStarted]) ∧
    exOk envOk.superStartR = true ∧ exOk envOk.setupDbR = true ∧
    exOk envOk.schedulerStartR = true ∧ exOk envOk.expirationSetupR = true ∧
    (srv0.setup_profiler = true → exOk envOk.profilerSetupR = true) ∧
    exOk envOk.rpcServerNew = true ∧ exOk envOk.rpcRegisterR = true ∧
    exOk envOk.rpcRunR = true :=
  C4_start_order envOk srv0 (by decide)

/-- C5: stop(graceful = true) on a server whose start() never completed
(at least one lifecycle handle never assigned) performs exactly the steps
whose handles are present: the base-service stop always runs, each
subsystem stop runs exactly when its handle is assigned, and each step
whose handle is absent is skipped; the embedding of stop is total, so no
step raises. -/
theorem C5_stop_partial_start (s : EngineServer)
    (h : s.scheduler = none ∨ s.expiration_policy_tg = none ∨
         s.rpc_server = none) :
    (s.scheduler = none →
      Event.schedulerStop true ∉ EngineServer.stop s true) ∧
    (s.scheduler.isSome = true →
      Event.schedulerStop true ∈ EngineServer.stop s true) ∧
    (s.expiration_policy_tg = none →
      Event.expirationStop true ∉ EngineServer.stop s true) ∧
    (s.expiration_policy_tg.isSome = true →
      Event.expirationStop true ∈ EngineServer.stop s true) ∧
    (s.rpc_server = none →
      Event.rpcStop true ∉ EngineServer.stop s true) ∧
    (s.rpc_server.isSome = true →
      Event.rpcStop true ∈ EngineServer.stop s true) ∧
    Event.superStop true ∈ EngineServer.stop s true := by
  obtain ⟨eng, sp, rs, sch, tg⟩ := s
  cases rs <;> cases sch <;> cases tg <;> simp_all [EngineServer.stop]

/-- C5 (witness): on a freshly constructed server, where no handle was ever
assigned, stop(graceful = true) skips all three subsystem stops and still
runs the base-service stop. -/
theorem C5_stop_partial_start_witness :
    (srv0.scheduler = none →
      Event.schedulerStop true ∉ EngineServer.stop srv0 true) ∧
    (srv0.scheduler.isSome = true →
      Event.schedulerStop true ∈ EngineServer.stop srv0 true) ∧
    (srv0.expiration_policy_tg = none →
      Event.expirationStop true ∉ EngineServer.stop srv0 true) ∧
    (srv0.expiration_policy_tg.isSome = true →
      Event.expirationStop true ∈ EngineServer.stop srv0 true) ∧
    (srv0.rpc_server = none →
      Event.rpcStop true ∉ EngineServer.stop srv0 true) ∧
    (srv0.rpc_server.isSome = true →
      Event.rpcStop true ∈ EngineServer.stop srv0 true) ∧
    Event.superStop true ∈ EngineServer.stop srv0 true :=
  C5_stop_partial_start srv0 (Or.inl rfl)

/-- C6 (counterexample): the claim that stop() releases the subsystems in
the reverse of the startup order is false.  On a fully started server, the
startup trace brings up scheduler, then expiration sweep, then RPC server,
and the stop trace releases them in that same order, scheduler first and
RPC server last, which is not the reverse of the startup order. -/
theorem C6_counterexample :
    ((EngineServer.start envOk srv0).1.filterMap Event.startedSubsystem
      = [Subsystem.scheduler, Subsystem.expiration, Subsystem.rpcServer]) ∧
    ((EngineServer.stop srvStarted true).filterMap Event.stoppedSubsystem
      = [Subsystem.scheduler, Subsystem.expiration, Subsystem.rpcServer]) ∧
    (decide
      ([Subsystem.scheduler, Subsystem.expiration, Subsystem.rpcServer]
        = [Subsystem.scheduler, Subsystem.expiration,
           Subsystem.rpcServer].reverse) = false) :=
  ⟨rfl, rfl, by decide⟩

/-- C6 (amended): stop(graceful) releases the subsystems in the same
relative order in which start() brought them up, not the reverse: after the
base-service stop, it stops the scheduler, then the expiration sweep, then
the RPC server, each stop receiving the graceful flag. -/
theorem C6_stop_order_amended (s : EngineServer) (g : Bool)
    (h1 : s.scheduler.isSome = true)
    (h2 : s.expiration_policy_tg.isSome = true)
    (h3 : s.rpc_server.isSome = true) :
    EngineServer.stop s g
      = [Event.superStop g, Event.schedulerStop g, Event.expirationStop g,
         Event.rpcStop g] := by
  obtain ⟨eng, sp, rs, sch, tg⟩ := s
  cases rs <;> cases sch <;> cases tg <;> simp_all [EngineServer.stop]

/-- C6 (witness): on the fully started server, graceful stop emits exactly
the base-service stop followed by scheduler, expiration-sweep and RPC-server
stops, in that order. -/
theorem C6_stop_order_amended_witness :
    EngineServer.stop srvStarted true
      = [Event.superStop true, Event.schedulerStop true,
         Event.expirationStop true, Event.rpcStop true] :=
  C6_stop_order_amended srvStarted true (by decide) (by decide) (by decide)

/-- C9 (counterexample): the claim that a profiler-setup failure is
non-fatal is false.  In an environment where profiler setup raises and
every other call succeeds, start() on a server with profiling enabled stops
at the profiler step: the trace ends at the profiler event, the fault
propagates out of start(), and the RPC endpoint is never constructed or
registered and the serve loop is never entered. -/
theorem C9_counterexample :
    ((EngineServer.start envProfFail srv0).1
      = [Event.superStart, Event.setupDb, Event.schedulerStart,
         Event.expirationSetup, Event.profilerSetup]) ∧
    ((EngineServer.start envProfFail srv0).2.2
      = Except.error ⟨"profiler down"⟩) ∧
    ((EngineServer.start envProfFail srv0).1.contains Event.rpcServerCreate
      = false) ∧
    ((EngineServer.start envProfFail srv0).1.contains Event.rpcRegister
      = false) ∧
    ((EngineServer.start envProfFail srv0).1.contains
        (Event.rpcRun "blocking") = false) :=
  ⟨rfl, rfl, by decide, by decide, by decide⟩

/-- C9 (amended): a failure while wiring profiling during start() is fatal:
when the profiler-setup call raises and every earlier step succeeded on a
server with profiling enabled, the fault propagates out of start()
unchanged and the trace stops at the profiler step, so the RPC endpoint is
never constructed, never registered, and the serve loop is never entered;
profiler wiring is skipped only when the server is constructed with the
setup_profiler flag unset. -/
theorem C9_profiler_fatal_amended (env : StartEnv) (s : EngineServer)
    (f : Fault) (h1 : s.setup_profiler = true)
    (h2 : exOk env.superStartR = true) (h3 : exOk env.setupDbR = true)
    (h4 : exOk env.schedulerStartR = true)
    (h5 : exOk env.expirationSetupR = true)
    (h6 : env.profilerSetupR = Except.error f) :
    ((EngineServer.start env s).1
      = [Event.superStart, Event.setupDb, Event.schedulerStart,
         Event.expirationSetup, Event.profilerSetup]) ∧
    ((EngineServer.start env s).2.2 = Except.error f) := by
  obtain ⟨r1, r2, r3, r4, r5, r6, r7, r8, r9⟩ := env
  cases r1 <;> cases r2 <;> cases r3 <;> cases r4 <;>
    simp_all [EngineServer.start, exOk]

/-- C9 (amended, witness): concrete instance of the amended claim in the
environment where only profiler setup fails. -/
theorem C9_profiler_fatal_witness :
    ((EngineServer.start envProfFail srv0).1
      = [Event.superStart, Event.setupDb, Event.schedulerStart,
         Event.expirationSetup, Event.profilerSetup]) ∧
    ((EngineServer.start envProfFail srv0).2.2
      = Except.error ⟨"profiler down"⟩) :=
  C9_profiler_fatal_amended envProfFail srv0 ⟨"profiler down"⟩
    rfl rfl rfl rfl rfl rfl

/-- C10: calling stop() with no argument is stop with graceful = False, and
every collaborator stop call it makes (the base-service stop, and the
scheduler, expiration-sweep and RPC-server stops whenever their handles are
present) receives graceful = False. -/
theorem C10_stop_default_nongraceful (s : EngineServer) :
    (EngineServer.stopNoArg s = EngineServer.stop s false) ∧
    (∀ ev, ev ∈ EngineServer.stopNoArg s →
      Event.gracefulOf ev = some false) ∧
    (s.scheduler.isSome = true →
      Event.schedulerStop false ∈ EngineServer.stopNoArg s) ∧
    (s.expiration_policy_tg.isSome = true →
      Event.expirationStop false ∈ EngineServer.stopNoArg s) ∧
    (s.rpc_server.isSome = true →
      Event.rpcStop false ∈ EngineServer.stopNoArg s) := by
  obtain ⟨eng, sp, rs, sch, tg⟩ := s
  cases rs <;> cases sch <;> cases tg <;>
    simp_all [EngineServer.stopNoArg, EngineServer.stop, Event.gracefulOf]

/-- C10 (witness): on the fully started server, the no-argument stop emits
the scheduler, expiration-sweep and RPC-server stops, every emitted event
carrying graceful = False. -/
theorem C10_stop_default_witness :
    Event.gracefulOf (Event.schedulerStop false) = some false ∧
    Event.schedulerStop false ∈ EngineServer.stopNoArg srvStarted ∧
    Event.expirationStop false ∈ EngineServer.stopNoArg srvStarted ∧
    Event.rpcStop false ∈ EngineServer.stopNoArg srvStarted :=
  ⟨(C10_stop_default_nongraceful srvStarted).2.1 (Event.schedulerStop false)
     ((C10_stop_default_nongraceful srvStarted).2.2.1 (by decide)),
   (C10_stop_default_nongraceful srvStarted).2.2.1 (by decide),
   (C10_stop_default_nongraceful srvStarted).2.2.2.1 (by decide),
   (C10_stop_default_nongraceful srvStarted).2.2.2.2 (by decide)⟩

end Mistral
